import Mathlib

/-!
Verification of the ladybug-vtk data pipeline against its specification.

The Python sources are shallowly embedded: runtime values appearing in data
lists become the inductive `Value`, Python exceptions become `PyError`, vtk
data arrays become `VtkDataArray`, and each method of interest becomes an
executable Lean function returning `Except PyError`. Numeric values are
modelled as rationals.
-/

set_option autoImplicit false

namespace LadybugVtk

/-- A scalar Python value: a float, an int, a string, or an unsupported value
such as None. -/
inductive Atom where
  | int (i : Int)
  | float (q : Rat)
  | str (s : String)
  | pyNone
  deriving Repr, DecidableEq

/-- A Python runtime value that can appear in a data list handed to
`PolyData.add_data` (polydata.py): a scalar, or a list or tuple of scalars
(the nested case of add_data, whose components vtk stores as scalars). -/
inductive Value where
  | atom (a : Atom)
  | tuple (elems : List Atom)
  deriving Repr, DecidableEq

/-- Shorthand for an int value. -/
def Value.int (i : Int) : Value := Value.atom (Atom.int i)

/-- Shorthand for a float value. -/
def Value.float (q : Rat) : Value := Value.atom (Atom.float q)

/-- Shorthand for a string value. -/
def Value.str (s : String) : Value := Value.atom (Atom.str s)

/-- Shorthand for the None value. -/
def Value.pyNone : Value := Value.atom Atom.pyNone

/-- The Python exception classes raised by the embedded code. -/
inductive PyError where
  | valueError (msg : String)
  | typeError (msg : String)
  | indexError
  | assertionError (msg : String)
  | notImplementedError (msg : String)
  | attributeError (msg : String)
  | nameError (msg : String)
  | osError
  deriving Repr, DecidableEq

/-- The class name of a raised exception, used to state which kind of error a
call fails with. -/
def PyError.className : PyError → String
  | PyError.valueError _ => "ValueError"
  | PyError.typeError _ => "TypeError"
  | PyError.indexError => "IndexError"
  | PyError.assertionError _ => "AssertionError"
  | PyError.notImplementedError _ => "NotImplementedError"
  | PyError.attributeError _ => "AttributeError"
  | PyError.nameError _ => "NameError"
  | PyError.osError => "OSError"

/-- The exception class a computation raised, if any. -/
def raisedClass {α : Type} : Except PyError α → Option String
  | Except.error e => some e.className
  | Except.ok _ => Option.none

/-- Whether a computation returned normally. -/
def isOk {α : Type} : Except PyError α → Bool
  | Except.ok _ => true
  | Except.error _ => false

/-- The storage kind of a vtk data array: vtkFloatArray, vtkIntArray or
vtkStringArray. -/
inductive ArrKind where
  | float
  | int
  | str
  deriving Repr, DecidableEq

/-- PolyData._resolve_array_type (polydata.py, lines 27 to 36): dispatch on the
Python type of a single value; floats give a vtkFloatArray, ints a
vtkIntArray, strings a vtkStringArray, anything else (None, a nested list)
raises ValueError. -/
def resolve_array_type : Value → Except PyError ArrKind
  | Value.atom (Atom.float _) => Except.ok ArrKind.float
  | Value.atom (Atom.int _) => Except.ok ArrKind.int
  | Value.atom (Atom.str _) => Except.ok ArrKind.str
  | _ => Except.error (PyError.valueError "Unsupported input data type")

/-- A vtk data array as built by add_data: its storage kind, optional name,
number of components and the inserted values. -/
structure VtkDataArray where
  kind : ArrKind
  arrName : Option String
  numComponents : Nat
  values : List Value
  deriving Repr, DecidableEq

/-- Whether vtk InsertNextValue accepts a scalar for an array of the given
kind: float arrays take floats and ints, int arrays take ints, string arrays
take strings; anything else raises TypeError in the vtk python bindings. -/
def insertAccepts : ArrKind → Atom → Bool
  | ArrKind.float, Atom.float _ => true
  | ArrKind.float, Atom.int _ => true
  | ArrKind.int, Atom.int _ => true
  | ArrKind.str, Atom.str _ => true
  | _, _ => false

/-- Whether InsertNextValue accepts a whole data-list element: a scalar must
be insertable itself; a tuple element in the non-tuple call shape raises
TypeError. -/
def valueInsertAccepts (k : ArrKind) : Value → Bool
  | Value.atom a => insertAccepts k a
  | Value.tuple _ => false

/-- The numeric reading of a stored value, used by GetRange. Non numeric
values never reach GetRange because insertion into numeric arrays rejects
them. -/
def valueAsRat : Value → Rat
  | Value.atom (Atom.int i) => (i : Rat)
  | Value.atom (Atom.float q) => q
  | _ => 0

/-- vtkDataArray.GetRange: the (min, max) of the stored numeric values; vtk
reports the invalid range (1, -1) for an empty array. -/
def vtkGetRange (arr : VtkDataArray) : Rat × Rat :=
  match arr.values.map valueAsRat with
  | [] => (1, -1)
  | q :: qs => (qs.foldl min q, qs.foldl max q)

/-- The value returned by PolyData._get_data_range: either the Python None
that the function produces by falling off the end of its branch chain, or a
2-tuple whose entries may themselves be None (the string-array branch returns
the user tuple unchanged). -/
inductive RangeResult where
  | pyNone
  | pair (mn mx : Option Rat)
  deriving Repr, DecidableEq

/-- The warnings _get_data_range can emit: both bounds auto computed, the min
auto filled, or the max auto filled. -/
inductive WarnKind where
  | autoBoth
  | autoMin
  | autoMax
  deriving Repr, DecidableEq

/-- Python truthiness of an optional numeric bound: None and 0 are falsy. -/
def optTruthy : Option Rat → Bool
  | Option.none => false
  | some q => q != 0

/-- PolyData._get_data_range (polydata.py, lines 147 to 220), translated
branch for branch. The data_range argument is None or a pair whose entries
may be None. Returns the emitted warnings together with the returned value;
raises ValueError on the invalid-range branches. In the string-array branch
the source runs tuple(data_range), which raises TypeError when data_range is
None. -/
def get_data_range (nm : String) (dataRange : Option (Option Rat × Option Rat))
    (array : VtkDataArray) : Except PyError (List WarnKind × RangeResult) :=
  if array.kind ≠ ArrKind.str then
    let autoRange := vtkGetRange array
    match dataRange with
    | Option.none =>
        Except.ok ([WarnKind.autoBoth],
          RangeResult.pair (some autoRange.1) (some autoRange.2))
    | some (mn, mx) =>
        if mn = Option.none ∧ mx = Option.none then
          Except.ok ([WarnKind.autoBoth],
            RangeResult.pair (some autoRange.1) (some autoRange.2))
        else if mn = Option.none ∧ optTruthy mx then
          Except.ok ([WarnKind.autoMin], RangeResult.pair (some autoRange.1) mx)
        else if optTruthy mn ∧ mx = Option.none then
          Except.ok ([WarnKind.autoMax], RangeResult.pair mn (some autoRange.2))
        else if mn = some 0 ∧ mx = some 0 then
          Except.error (PyError.valueError
            (nm ++ ": min and max values of legend cannot be both 0"))
        else
          match mn, mx with
          | some m, some mM =>
              if m ≥ mM then
                Except.error (PyError.valueError
                  (nm ++ ": Min value cannot be greater than the max value"))
              else if m = mM then
                Except.error (PyError.valueError
                  (nm ++ ": Min and max values cannot be the same"))
              else
                Except.ok ([], RangeResult.pair (some m) (some mM))
          | _, _ => Except.ok ([], RangeResult.pyNone)
  else
    match dataRange with
    | Option.none =>
        Except.error (PyError.typeError "NoneType object is not iterable")
    | some (mn, mx) => Except.ok ([], RangeResult.pair mn mx)

/-- Modelled from the spec: the ColorSets palette enumeration lives in the
repository module legend_parameter.py, which is not among the sources at
hand; only its ecotect default is needed here. -/
inductive ColorSet where
  | ecotect
  | other (id : Nat)
  deriving Repr, DecidableEq

/-- Modelled from the spec: LegendParameter from the missing module
legend_parameter.py; the spec only needs a name, a palette, an optional auto
range and a hide flag for the legend, which the string branch of add_data
sets to true. -/
structure LegendParameter where
  lpName : String
  lpColors : ColorSet
  lpAutoRange : RangeResult
  hide_legend : Bool
  deriving Repr, DecidableEq

/-- DataFieldInfo (data_field_info.py): the metadata record stored per field,
holding the name, resolved range, palette, placement flag and the legend
parameter object its constructor builds. -/
structure DataFieldInfo where
  fiName : String
  fiRange : RangeResult
  fiColors : ColorSet
  per_face : Bool
  legend_parameter : LegendParameter
  deriving Repr, DecidableEq

/-- The DataFieldInfo constructor (data_field_info.py, lines 26 to 32). -/
def DataFieldInfo.make (nm : String) (range : RangeResult) (colors : ColorSet)
    (perFace : Bool) : DataFieldInfo :=
  { fiName := nm, fiRange := range, fiColors := colors, per_face := perFace,
    legend_parameter :=
      { lpName := nm, lpColors := colors, lpAutoRange := range,
        hide_legend := false } }

/-- PolyData (polydata.py): the vtkPolyData wrapper. The underlying geometry
is abstracted to its cell and point counts; the wrapper state is the attached
cell and point data arrays plus the _fields mapping. -/
structure PolyData where
  numCells : Nat
  numPoints : Nat
  cellArrays : List VtkDataArray
  pointArrays : List VtkDataArray
  fields : List (String × DataFieldInfo)
  deriving Repr, DecidableEq

/-- The tail of add_data (polydata.py, lines 72 to 102) after the value array
has been created and every insertion accepted: name the array, attach it to
cell or point data, resolve the range, store the DataFieldInfo and hide the
legend for string arrays. -/
def add_data_finish (p : PolyData) (data : List Value) (nm : String)
    (cell : Bool) (colors : Option ColorSet)
    (dataRange : Option (Option Rat × Option Rat)) (kind : ArrKind)
    (ncomp : Nat) : Except PyError (PolyData × List WarnKind) :=
  let values : VtkDataArray :=
    { kind := kind,
      arrName := if nm ≠ "" then some nm else Option.none,
      numComponents := ncomp,
      values := data }
  let p1 :=
    if cell then { p with cellArrays := p.cellArrays ++ [values] }
    else { p with pointArrays := p.pointArrays ++ [values] }
  match get_data_range nm dataRange values with
  | Except.error e => Except.error e
  | Except.ok (warns, range) =>
      let colorsR :=
        match colors with
        | Option.none => ColorSet.ecotect
        | some c => c
      let info := DataFieldInfo.make nm range colorsR cell
      let info :=
        if kind = ArrKind.str then
          { info with legend_parameter :=
              { info.legend_parameter with hide_legend := true } }
        else info
      Except.ok ({ p1 with fields := p1.fields ++ [(nm, info)] }, warns)

/-- PolyData.add_data (polydata.py, lines 43 to 102). Asserts the field name
is new, reads data[0] (IndexError on an empty list), resolves the array kind
from the first element (or the first element of the first tuple for nested
data), inserts every value (TypeError if vtk rejects one), then finishes the
attachment. No check relates the length of the data to the cell or point
count of the buffer. -/
def add_data (p : PolyData) (data : List Value) (nm : String) (cell : Bool)
    (colors : Option ColorSet) (dataRange : Option (Option Rat × Option Rat)) :
    Except PyError (PolyData × List WarnKind) :=
  if p.fields.any (fun f => f.1 = nm) then
    Except.error (PyError.assertionError
      ("A data filed by name " ++ nm ++ " already exist."))
  else
    match data with
    | [] => Except.error PyError.indexError
    | d0 :: _ =>
        match d0 with
        | Value.tuple t0 =>
            match t0 with
            | [] => Except.error PyError.indexError
            | t00 :: _ =>
                match resolve_array_type (Value.atom t00) with
                | Except.error e => Except.error e
                | Except.ok kind =>
                    if data.all (fun d =>
                        match d with
                        | Value.tuple comps => comps.all (insertAccepts kind)
                        | _ => false) then
                      add_data_finish p data nm cell colors dataRange kind
                        t0.length
                    else
                      Except.error (PyError.typeError
                        "InsertNextValue rejected an argument")
        | _ =>
            match resolve_array_type d0 with
            | Except.error e => Except.error e
            | Except.ok kind =>
                if data.all (valueInsertAccepts kind) then
                  add_data_finish p data nm cell colors dataRange kind 1
                else
                  Except.error (PyError.typeError
                    "InsertNextValue rejected an argument")

/-- A concrete buffer with two cells and four points and no attached field,
used for concrete evaluations. -/
def polyTwoCells : PolyData :=
  { numCells := 2, numPoints := 4, cellArrays := [], pointArrays := [],
    fields := [] }

/-- A concrete int array with values 1, 5, 3, used for concrete
evaluations. -/
def exampleIntArray : VtkDataArray :=
  { kind := ArrKind.int, arrName := some "example", numComponents := 1,
    values := [Value.int 1, Value.int 5, Value.int 3] }

/-- Mapping strings into string values keeps every element insertable into a
vtkStringArray. -/
theorem all_str_insert (vs : List String) :
    (vs.map Value.str).all (valueInsertAccepts ArrKind.str) = true := by
  induction vs with
  | nil => rfl
  | cons v vs ih => simp [Value.str, valueInsertAccepts, insertAccepts, ih]

/-- Mapping ints into int values keeps every element insertable into a
vtkIntArray. -/
theorem all_int_insert (vs : List Int) :
    (vs.map Value.int).all (valueInsertAccepts ArrKind.int) = true := by
  induction vs with
  | nil => rfl
  | cons v vs ih => simp [Value.int, valueInsertAccepts, insertAccepts, ih]

/-- C5: for every numeric array, when both explicit bounds are given and
numeric with min at least max (which includes the pair (0, 0)), the range
resolver raises a ValueError and returns no range. -/
theorem c5_invalid_range (nm : String) (arr : VtkDataArray) (m mM : Rat)
    (hk : arr.kind ≠ ArrKind.str) (h : m ≥ mM) :
    raisedClass (get_data_range nm (some (some m, some mM)) arr) =
      some "ValueError" := by
  by_cases h4 : m = 0 ∧ mM = 0
  · simp [get_data_range, hk, optTruthy, h4.1, h4.2, raisedClass,
      PyError.className]
  · simp [get_data_range, hk, optTruthy, h4, h, raisedClass,
      PyError.className]

/-- Witness for c5_invalid_range at a concrete input. -/
theorem c5_invalid_range_witness :
    raisedClass (get_data_range "daylight" (some (some 5, some 2)) exampleIntArray) =
      some "ValueError" :=
  c5_invalid_range "daylight" exampleIntArray 5 2 (by decide) (by norm_num)

/-- C3 counterexample: with data [1, 5, 3] and the explicit range (None, 0),
exactly one bound is None, yet the resolver returns the Python None value
with no warning instead of keeping the supplied bound 0 and filling the
missing minimum: the supplied zero bound is falsy, so every branch of the
chain is skipped. -/
theorem c3_counterexample :
    get_data_range "radiation" (some (Option.none, some 0)) exampleIntArray =
      Except.ok ([], RangeResult.pyNone) := by
  rfl

/-- C3 amended: for a numeric array and an explicit range pair with exactly
one bound missing, the resolver keeps the supplied bound and fills the other
from the data extremes, warning about the filled side, provided the supplied
bound is nonzero; when the supplied bound equals 0 it falls through every
branch and returns the Python None with no warning. -/
theorem c3_one_sided_range (nm : String) (arr : VtkDataArray) (mn mx : Option Rat)
    (hk : arr.kind ≠ ArrKind.str)
    (hone : (mn = Option.none ∧ mx ≠ Option.none) ∨
      (mn ≠ Option.none ∧ mx = Option.none)) :
    get_data_range nm (some (mn, mx)) arr =
      if optTruthy mx then
        Except.ok ([WarnKind.autoMin],
          RangeResult.pair (some (vtkGetRange arr).1) mx)
      else if optTruthy mn then
        Except.ok ([WarnKind.autoMax],
          RangeResult.pair mn (some (vtkGetRange arr).2))
      else
        Except.ok ([], RangeResult.pyNone) := by
  rcases hone with ⟨hmn, hmx⟩ | ⟨hmn, hmx⟩
  · subst hmn
    rcases mx with _ | q
    · exact absurd rfl hmx
    · by_cases hq : q = 0
      · subst hq
        simp [get_data_range, if_pos hk, optTruthy]
      · simp [get_data_range, if_pos hk, optTruthy, hq]
  · subst hmx
    rcases mn with _ | q
    · exact absurd rfl hmn
    · by_cases hq : q = 0
      · subst hq
        simp [get_data_range, if_pos hk, optTruthy]
      · simp [get_data_range, if_pos hk, optTruthy, hq]

/-- Witness for c3_one_sided_range at a concrete input: bound pair (2, None)
on data with maximum 5 keeps the 2 and fills the max. -/
theorem c3_one_sided_range_witness :
    get_data_range "radiation" (some (some 2, Option.none)) exampleIntArray =
      Except.ok ([WarnKind.autoMax], RangeResult.pair (some 2) (some 5)) := by
  rw [c3_one_sided_range "radiation" exampleIntArray (some 2) Option.none
    (by decide) (Or.inr (by simp))]
  rfl

/-- C4 counterexample: attaching a string valued field with no explicit
range raises a TypeError (the source runs tuple(None) in the string branch)
instead of storing an empty placeholder range with a hidden legend. -/
theorem c4_counterexample :
    add_data polyTwoCells [Value.str "north", Value.str "south"] "orientation"
      true Option.none Option.none =
      Except.error (PyError.typeError "NoneType object is not iterable") := by
  rfl

/-- C4 amended: a string valued field attached with an explicit bound pair is
stored with a hidden legend and exactly that pair as its range, never a range
computed from the strings; when no explicit range is given the call raises a
TypeError, so no field is attached and no placeholder range exists. -/
theorem c4_string_field (p : PolyData) (vs : List String) (nm : String)
    (cell : Bool) (colors : Option ColorSet) (mn mx : Option Rat)
    (hne : vs ≠ []) (hfresh : p.fields.any (fun f => f.1 = nm) = false) :
    ((add_data p (vs.map Value.str) nm cell colors (some (mn, mx))).map
        (fun r => (r.1.fields.map Prod.fst,
          r.1.fields.map (fun f => (f.2.legend_parameter.hide_legend, f.2.fiRange)),
          r.2)) =
      Except.ok (p.fields.map Prod.fst ++ [nm],
        p.fields.map (fun f => (f.2.legend_parameter.hide_legend, f.2.fiRange)) ++
          [(true, RangeResult.pair mn mx)],
        [])) ∧
    raisedClass (add_data p (vs.map Value.str) nm cell colors Option.none) =
      some "TypeError" := by
  rcases vs with _ | ⟨v, tl⟩
  · exact absurd rfl hne
  · cases cell <;>
      constructor <;>
        simp [add_data, add_data_finish, get_data_range, resolve_array_type,
          Value.str, valueInsertAccepts, insertAccepts, all_str_insert, hfresh,
          raisedClass, PyError.className, DataFieldInfo.make, Except.map]

/-- Witness for c4_string_field at a concrete input. -/
theorem c4_string_field_witness :
    ((add_data polyTwoCells (["a", "b"].map Value.str) "names" true Option.none
        (some (some 1, some 9))).map
        (fun r => (r.1.fields.map Prod.fst,
          r.1.fields.map (fun f => (f.2.legend_parameter.hide_legend, f.2.fiRange)),
          r.2)) =
      Except.ok (polyTwoCells.fields.map Prod.fst ++ ["names"],
        polyTwoCells.fields.map
          (fun f => (f.2.legend_parameter.hide_legend, f.2.fiRange)) ++
          [(true, RangeResult.pair (some 1) (some 9))],
        [])) ∧
    raisedClass (add_data polyTwoCells (["a", "b"].map Value.str) "names" true
      Option.none Option.none) = some "TypeError" :=
  c4_string_field polyTwoCells ["a", "b"] "names" true Option.none (some 1)
    (some 9) (by simp) rfl

/-- C1 counterexample: a per-face values list of length 3 on a buffer with 2
cells is attached without any error and the field appears in the field set;
add_data performs no length validation at all. -/
theorem c1_counterexample :
    (add_data polyTwoCells [Value.int 10, Value.int 20, Value.int 30] "UDI"
        true Option.none Option.none).map
      (fun r => (r.1.fields.map Prod.fst, r.1.cellArrays.map (fun a => a.values.length))) =
      Except.ok (["UDI"], [3]) ∧
    polyTwoCells.numCells = 2 := by
  constructor
  · rfl
  · rfl

/-- C1 amended: add_data never compares the length of the values list with
the cell or point count of the buffer: for every nonempty integer values list
under a fresh name, whatever its length, the call succeeds and the field is
appended to the field set. -/
theorem c1_no_length_validation (p : PolyData) (is : List Int) (nm : String)
    (cell : Bool) (colors : Option ColorSet)
    (hne : is ≠ []) (hfresh : p.fields.any (fun f => f.1 = nm) = false) :
    (add_data p (is.map Value.int) nm cell colors Option.none).map
        (fun r => r.1.fields.map Prod.fst) =
      Except.ok (p.fields.map Prod.fst ++ [nm]) := by
  rcases is with _ | ⟨v, tl⟩
  · exact absurd rfl hne
  · cases cell <;>
      simp [add_data, add_data_finish, get_data_range, resolve_array_type,
        Value.int, valueInsertAccepts, insertAccepts, all_int_insert, hfresh,
        DataFieldInfo.make, Except.map]

/-- Witness for c1_no_length_validation at a concrete input. -/
theorem c1_no_length_validation_witness :
    (add_data polyTwoCells ([10, 20, 30].map Value.int) "UDI2" true Option.none
        Option.none).map
      (fun r => r.1.fields.map Prod.fst) =
      Except.ok (polyTwoCells.fields.map Prod.fst ++ ["UDI2"]) :=
  c1_no_length_validation polyTwoCells [10, 20, 30] "UDI2" true Option.none
    (by simp) rfl

/-- C9 counterexample: the mixed list [1.5, 2] (a float then an int) is not
rejected: the storage kind is resolved from the first element alone, the int
is coerced into the float array, the call succeeds and the field is
attached. -/
theorem c9_counterexample :
    (add_data polyTwoCells [Value.float ((3 : Rat) / 2), Value.int 2] "mixed"
        true Option.none Option.none).map
      (fun r => (r.1.cellArrays.map VtkDataArray.kind, r.1.fields.map Prod.fst)) =
      Except.ok ([ArrKind.float], ["mixed"]) := by
  rfl

/-- C9 amended: the storage kind is chosen from the first element alone
(float gives a float array, int an int array, string a string array), and a
first element of unsupported type makes add_data raise a ValueError with no
field attached; a mixed list whose first element is supported is not
rejected by the type resolution. -/
theorem c9_first_element_dispatch :
    (∀ q, resolve_array_type (Value.float q) = Except.ok ArrKind.float) ∧
    (∀ i, resolve_array_type (Value.int i) = Except.ok ArrKind.int) ∧
    (∀ s, resolve_array_type (Value.str s) = Except.ok ArrKind.str) ∧
    (∀ (p : PolyData) (rest : List Value) (nm : String) (cell : Bool)
        (colors : Option ColorSet) (dr : Option (Option Rat × Option Rat)),
      p.fields.any (fun f => f.1 = nm) = false →
      raisedClass (add_data p (Value.pyNone :: rest) nm cell colors dr) =
        some "ValueError") := by
  refine ⟨fun q => rfl, fun i => rfl, fun s => rfl, ?_⟩
  intro p rest nm cell colors dr hfresh
  simp [add_data, hfresh, Value.pyNone, resolve_array_type, raisedClass,
    PyError.className]

/-- Witness for c9_first_element_dispatch at a concrete input. -/
theorem c9_first_element_dispatch_witness :
    raisedClass (add_data polyTwoCells (Value.pyNone :: []) "bad" true
      Option.none Option.none) = some "ValueError" :=
  c9_first_element_dispatch.2.2.2 polyTwoCells [] "bad" true Option.none
    Option.none rfl

/-- An RGBA color (ladybug.color.Color), each channel in 0 to 255. -/
structure Color where
  r : Nat
  g : Nat
  b : Nat
  a : Nat
  deriving Repr, DecidableEq

/-- Color.duplicate from the ladybug color library: a copy of the color. -/
def Color.duplicate (c : Color) : Color :=
  { r := c.r, g := c.g, b := c.b, a := c.a }

/-- The default gray Color(204, 204, 204, 255) used when no color is given
(display_polydata.py, line 57). -/
def defaultGray : Color := { r := 204, g := 204, b := 204, a := 255 }

/-- DisplayMode (vtkjs/schema.py, lines 11 to 17). -/
inductive DisplayMode where
  | Points
  | Wireframe
  | Surface
  | SurfaceWithEdges
  deriving Repr, DecidableEq

/-- The numeric value of each DisplayMode member (vtkjs/schema.py): Points 0,
Wireframe 1, Surface 2, SurfaceWithEdges 3. -/
def DisplayMode.value : DisplayMode → Nat
  | DisplayMode.Points => 0
  | DisplayMode.Wireframe => 1
  | DisplayMode.Surface => 2
  | DisplayMode.SurfaceWithEdges => 3

/-- Modelled from the spec: the auto computed (min, max) of a value list for
the range resolver of the newer field attachment API (spec section 4.2). -/
def spec_auto_range (vals : List Value) : Rat × Rat :=
  match vals.map valueAsRat with
  | [] => (0, 0)
  | q :: qs => (qs.foldl min q, qs.foldl max q)

/-- Modelled from the spec: resolveRange of spec section 4.2 for the newer
field attachment API of polydata.py, whose revision is not among the sources
at hand: string arrays keep whatever bounds were given, absent bounds are
auto filled from the data, a (0, 0) pair or a min at least the max is an
invalid range error. -/
def resolve_range_spec (vals : List Value) (kind : ArrKind)
    (mn mx : Option Rat) : Except PyError RangeResult :=
  if kind = ArrKind.str then Except.ok (RangeResult.pair mn mx)
  else
    match mn, mx with
    | Option.none, Option.none =>
        Except.ok (RangeResult.pair (some (spec_auto_range vals).1)
          (some (spec_auto_range vals).2))
    | Option.none, some b =>
        Except.ok (RangeResult.pair (some (spec_auto_range vals).1) (some b))
    | some a, Option.none =>
        Except.ok (RangeResult.pair (some a) (some (spec_auto_range vals).2))
    | some a, some b =>
        if a = 0 ∧ b = 0 then
          Except.error (PyError.valueError "min and max cannot both be 0")
        else if a ≥ b then
          Except.error (PyError.valueError "min cannot be at least max")
        else Except.ok (RangeResult.pair (some a) (some b))

/-- Modelled from the spec: choose the storage kind of the newer field
attachment API from the whole list: all ints give an int array, all numbers
a float array, all strings a string array; anything else is an unsupported
value type error (spec section 4.1). -/
def spec_kind (vals : List Value) : Except PyError ArrKind :=
  if vals.all (fun v =>
      match v with
      | Value.atom (Atom.int _) => true
      | _ => false) then
    Except.ok ArrKind.int
  else if vals.all (fun v =>
      match v with
      | Value.atom (Atom.float _) => true
      | Value.atom (Atom.int _) => true
      | _ => false) then
    Except.ok ArrKind.float
  else if vals.all (fun v =>
      match v with
      | Value.atom (Atom.str _) => true
      | _ => false) then
    Except.ok ArrKind.str
  else Except.error (PyError.valueError "unsupported value type")

/-- Modelled from the spec: a field of the newer PolyData API, carrying its
values, placement and resolved legend range. -/
structure SField where
  sfName : String
  sfValues : List Value
  sfPerFace : Bool
  sfRange : RangeResult
  deriving Repr, DecidableEq

/-- Modelled from the spec: the newer PolyData consumed by DisplayPolyData
(display_polydata.py); the geometry is abstracted to its cell and point
counts, and color_by is the name of the active field. The revision of
polydata.py defining this API is not among the sources at hand (the bundled
polydata.py is the older API used by ModelDataSet). -/
structure SPolyData where
  sCells : Nat
  sPoints : Nat
  sFields : List SField
  sColorBy : Option String
  deriving Repr, DecidableEq

/-- Modelled from the spec: addField of the newer PolyData API (spec section
4.1): requires a fresh name, requires the value count to equal the cell
count for per-face placement or the point count for per-point placement
(failing with an ArrayLengthMismatchError-class error otherwise), chooses
the storage kind, resolves the legend range and appends the field. -/
def SPolyData.add_field (p : SPolyData) (vals : List Value) (nm : String)
    (perFace : Bool) (mn mx : Option Rat) : Except PyError SPolyData :=
  if p.sFields.any (fun f => f.sfName = nm) then
    Except.error (PyError.assertionError "duplicate field name")
  else if vals.length ≠ (if perFace then p.sCells else p.sPoints) then
    Except.error (PyError.valueError "length mismatch")
  else
    match spec_kind vals with
    | Except.error e => Except.error e
    | Except.ok kind =>
        match resolve_range_spec vals kind mn mx with
        | Except.error e => Except.error e
        | Except.ok range =>
            let fld : SField :=
              { sfName := nm, sfValues := vals, sfPerFace := perFace,
                sfRange := range }
            Except.ok { p with sFields := p.sFields ++ [fld] }

/-- DisplayPolyData (display_polydata.py): display name, identifier, owned
polydata buffers, diffuse color, display mode and hidden flag. -/
structure DisplayPolyDataM where
  dpName : String
  dpIdentifier : String
  dpPolydata : List SPolyData
  dpColor : Color
  dpDisplayMode : DisplayMode
  dpHidden : Bool
  deriving Repr, DecidableEq

/-- The DisplayPolyData constructor (display_polydata.py, lines 46 to 59)
with a provided identifier; a missing color defaults to the gray. -/
def DisplayPolyDataM.make (nm ident : String) (polydata : List SPolyData)
    (color : Option Color) (mode : DisplayMode) (hidden : Bool) :
    DisplayPolyDataM :=
  { dpName := nm, dpIdentifier := ident, dpPolydata := polydata,
    dpColor :=
      match color with
      | some c => c
      | Option.none => defaultGray,
    dpDisplayMode := mode, dpHidden := hidden }

/-- DisplayPolyData.opacity getter (display_polydata.py, lines 216 to 219):
the alpha channel of the diffuse color. -/
def DisplayPolyDataM.opacity (d : DisplayPolyDataM) : Nat := d.dpColor.a

/-- DisplayPolyData.opacity setter (display_polydata.py, lines 221 to 224),
translated statement for statement: it duplicates the color, sets the alpha
channel on the duplicate, and never stores the duplicate back on the object,
so the object is returned unchanged. -/
def DisplayPolyDataM.opacity_set (d : DisplayPolyDataM) (value : Nat) :
    DisplayPolyDataM :=
  let color := d.dpColor.duplicate
  let _colorWithAlpha : Color := { color with a := value }
  d

/-- DisplayPolyData.edge_visibility (display_polydata.py, lines 258 to 267),
and identically ModelDataSet.edge_visibility (model_dataset.py, lines 143 to
152): edges are hidden for mode values 0 and 2 and shown otherwise. -/
def edge_visibility (mode : DisplayMode) : Bool :=
  if mode.value = 0 ∨ mode.value = 2 then false else true

/-- The property block of a manifest entry (schema.py DataSetProperty,
restricted to the fields the pipeline fills in). -/
structure DataSetPropertyM where
  representation : Nat
  edgeVisibility : Nat
  diffuseColor : List Rat
  opacity : Rat
  deriving Repr, DecidableEq

/-- The property block computed identically by DisplayPolyData.to_vtk_dataset
(display_polydata.py, lines 290 to 295) and ModelDataSet.as_data_set
(model_dataset.py, lines 187 to 192): the representation is the display mode
value clamped at 2, edgeVisibility the int of edge_visibility, the color
channels and the opacity normalized by 255. -/
def dataset_property (mode : DisplayMode) (color : Color) : DataSetPropertyM :=
  { representation := min mode.value 2,
    edgeVisibility := if edge_visibility mode then 1 else 0,
    diffuseColor :=
      [(color.r : Rat) / 255, (color.g : Rat) / 255, (color.b : Rat) / 255],
    opacity := (color.a : Rat) / 255 }

/-- The mapper block of a manifest entry (schema.py DataSetMapper). -/
structure DataSetMapperM where
  colorByArrayName : String
  colorMode : Nat
  scalarMode : Nat
  deriving Repr, DecidableEq

/-- A vtkjs manifest entry (schema.py DataSet), restricted to the fields the
export pipeline fills in. -/
structure DataSetM where
  dsmName : String
  dsmUrl : String
  dsmProperty : DataSetPropertyM
  dsmMapper : DataSetMapperM
  dsmMetadataCount : Nat
  dsmHidden : Bool
  deriving Repr, DecidableEq

/-- DisplayPolyData.to_vtk_dataset (display_polydata.py, lines 288 to 319):
builds the manifest entry for the group; color_by and the metadata list are
read from the first polydata, so an empty group raises IndexError. -/
def DisplayPolyDataM.to_vtk_dataset (d : DisplayPolyDataM) :
    Except PyError DataSetM :=
  match d.dpPolydata with
  | [] => Except.error PyError.indexError
  | pd0 :: _ =>
      Except.ok
        { dsmName := d.dpName,
          dsmUrl := d.dpIdentifier,
          dsmProperty := dataset_property d.dpDisplayMode d.dpColor,
          dsmMapper :=
            { colorByArrayName :=
                match pd0.sColorBy with
                | some s => s
                | Option.none => "",
              colorMode := 0, scalarMode := 4 },
          dsmMetadataCount := pd0.sFields.length,
          dsmHidden := d.dpHidden }

/-- C6: for every display group with at least one buffer and every display
mode, the manifest entry representation equals the mode value clamped down
to the 0 to 2 range, while edgeVisibility is derived from the pre-clamp
mode: it is 1 exactly when the mode is Wireframe or SurfaceWithEdges and 0
otherwise. -/
theorem c6_representation_clamp (d : DisplayPolyDataM) (pd0 : SPolyData)
    (rest : List SPolyData) (hpd : d.dpPolydata = pd0 :: rest) :
    (d.to_vtk_dataset).map
        (fun e => (e.dsmProperty.representation, e.dsmProperty.edgeVisibility)) =
      Except.ok (min d.dpDisplayMode.value 2,
        if d.dpDisplayMode = DisplayMode.Wireframe ∨
            d.dpDisplayMode = DisplayMode.SurfaceWithEdges then 1 else 0) := by
  cases hm : d.dpDisplayMode <;>
    simp [DisplayPolyDataM.to_vtk_dataset, hpd, dataset_property,
      edge_visibility, DisplayMode.value, Except.map, hm]

/-- A concrete two-cell buffer of the newer API with no field, used for
concrete evaluations. -/
def examplePolyBuffer : SPolyData :=
  { sCells := 2, sPoints := 4, sFields := [], sColorBy := Option.none }

/-- A concrete one-buffer display group used for concrete evaluations. -/
def exampleGroup : DisplayPolyDataM :=
  { dpName := "Data", dpIdentifier := "data-group",
    dpPolydata := [examplePolyBuffer],
    dpColor := defaultGray, dpDisplayMode := DisplayMode.SurfaceWithEdges,
    dpHidden := false }

/-- Witness for c6_representation_clamp at a concrete input: the
SurfaceWithEdges mode exports representation 2 with visible edges. -/
theorem c6_representation_clamp_witness :
    (exampleGroup.to_vtk_dataset).map
        (fun e => (e.dsmProperty.representation, e.dsmProperty.edgeVisibility)) =
      Except.ok (min exampleGroup.dpDisplayMode.value 2,
        if exampleGroup.dpDisplayMode = DisplayMode.Wireframe ∨
            exampleGroup.dpDisplayMode = DisplayMode.SurfaceWithEdges
          then 1 else 0) :=
  c6_representation_clamp exampleGroup examplePolyBuffer [] rfl

/-- C10: assigning to the opacity property never changes the object: the
setter mutates a discarded duplicate of the color, so the color, the read
opacity and the whole object are unchanged. -/
theorem c10_opacity_setter_is_noop (d : DisplayPolyDataM) (v : Nat) :
    (d.opacity_set v).dpColor = d.dpColor ∧
    (d.opacity_set v).opacity = d.opacity ∧
    d.opacity_set v = d :=
  ⟨rfl, rfl, rfl⟩

/-- The geometry kinds that the display grouping separates via isinstance
checks (display_polydata.py, lines 78 to 85): mesh kinds, point kinds, or
other display geometry. -/
inductive GeomKind where
  | mesh3d
  | mesh2d
  | point3d
  | other
  deriving Repr, DecidableEq

/-- A ladybug_display geometry entity, abstracted to its kind and its face
and vertex counts. -/
structure GeomEntity where
  kind : GeomKind
  gFaces : Nat
  gVertices : Nat
  deriving Repr, DecidableEq

/-- Modelled from the spec: the external geometry-to-buffer converter (the
to_polydata method injected on each geometry kind): the produced buffer has
one cell per face and one point per vertex. -/
def GeomEntity.to_polydata (g : GeomEntity) : SPolyData :=
  { sCells := g.gFaces, sPoints := g.gVertices, sFields := [],
    sColorBy := Option.none }

/-- Modelled from the spec: from_points3d merges a list of point entities
into one buffer with one point and one vertex cell per entity. -/
def from_points3d_spec (gs : List GeomEntity) : SPolyData :=
  { sCells := gs.length, sPoints := gs.length, sFields := [],
    sColorBy := Option.none }

/-- A data set of an AnalysisGeometry: its values, its legend min and max
bounds, and its data type name when one is declared. -/
structure AGDataSet where
  dsValues : List Value
  dsMin : Option Rat
  dsMax : Option Rat
  dsTypeName : Option String
  deriving Repr, DecidableEq

/-- Modelled from the spec: PolyData._get_dataset_name of the newer
polydata.py revision, which is not among the sources at hand: a data set is
named from its declared data type, with a generic fallback name. -/
def get_dataset_name (ds : AGDataSet) : String :=
  match ds.dsTypeName with
  | some n => n
  | Option.none => "untitled"

/-- A ladybug_display AnalysisGeometry as consumed by
DisplayPolyData.from_analysis_geometry: entities, data sets, the active data
index, the declared matching method string, the display mode and the hidden
flag. -/
structure AnalysisGeometryM where
  agIdentifier : String
  agDisplayName : String
  agGeometry : List GeomEntity
  agDataSets : List AGDataSet
  agActiveData : Nat
  agMatchingMethod : String
  agDisplayMode : DisplayMode
  agHidden : Bool
  deriving Repr, DecidableEq

/-- The contiguous slicing of a data array across several meshes
(display_polydata.py, lines 108 to 118): each mesh takes the next run of
values, whose length is its face count for faces matching and its vertex
count otherwise. -/
def slice_values (matching : String) :
    List GeomEntity → Nat → List Value → List (List Value)
  | [], _, _ => []
  | g :: gs, start, vals =>
      let count := if matching = "faces" then g.gFaces else g.gVertices
      ((vals.drop start).take count) :: slice_values matching gs (start + count) vals

/-- The attachment loop of from_analysis_geometry (display_polydata.py,
lines 126 to 133): the value list for each buffer is looked up by buffer
position (IndexError when there are fewer value lists than buffers) and
attached per face unless the matching method is vertices. -/
def attach_all (nm : String) (perFace : Bool) (mn mx : Option Rat) :
    List SPolyData → List (List Value) → Except PyError (List SPolyData)
  | [], _ => Except.ok []
  | _ :: _, [] => Except.error PyError.indexError
  | pd :: pds, vs :: rest =>
      match pd.add_field vs nm perFace mn mx with
      | Except.error e => Except.error e
      | Except.ok pd1 =>
          match attach_all nm perFace mn mx pds rest with
          | Except.error e => Except.error e
          | Except.ok pds1 => Except.ok (pd1 :: pds1)

/-- The data set loop of DisplayPolyData.from_analysis_geometry
(display_polydata.py, lines 91 to 135): the per-object (geometries) matching
duplicates each value across the faces of its buffer and switches the
matching method to faces for the rest of the run; point collections attach
the whole array; mesh collections attach the whole array or contiguous
slices of it; any other combination fails the assert. The loop tracks the
name of the active data set for color_by. -/
def display_process (allMesh allPoints : Bool) (geometries : List GeomEntity)
    (activeData : Nat) :
    List AGDataSet → Nat → String → List SPolyData → Option String →
    Except PyError (List SPolyData × String × Option String)
  | [], _, matching, pds, colorBy => Except.ok (pds, matching, colorBy)
  | ds :: rest, dsCount, matching, pds, colorBy =>
      let dsName := get_dataset_name ds
      let stepE : Except PyError (List (List Value) × String) :=
        if matching = "geometries" ∧ ¬ allPoints then
          Except.ok ((ds.dsValues.zip pds).map
            (fun vp => List.replicate vp.2.sCells vp.1), "faces")
        else if allPoints then Except.ok ([ds.dsValues], matching)
        else if allMesh then
          if geometries.length = 1 then Except.ok ([ds.dsValues], matching)
          else Except.ok (slice_values matching geometries 0 ds.dsValues, matching)
        else Except.error (PyError.assertionError "Unknown data mapping combination.")
      match stepE with
      | Except.error e => Except.error e
      | Except.ok (dsValuesList, matching1) =>
          match attach_all dsName (matching1 ≠ "vertices") ds.dsMin ds.dsMax
              pds dsValuesList with
          | Except.error e => Except.error e
          | Except.ok pds1 =>
              display_process allMesh allPoints geometries activeData rest
                (dsCount + 1) matching1 pds1
                (if dsCount = activeData then some dsName else colorBy)

/-- DisplayPolyData.from_analysis_geometry (display_polydata.py, lines 71 to
145), with the newer PolyData field API modelled from the spec: converts
entities to buffers, collapses an all-points collection into one merged
buffer and forces vertices matching, runs the data set loop, then builds the
group and sets color_by on every buffer; when no data set index matched the
active index the color_by local of the source is unbound and a NameError
surfaces. -/
def from_analysis_geometry_display (ag : AnalysisGeometryM) :
    Except PyError DisplayPolyDataM :=
  let polyDatas := ag.agGeometry.map GeomEntity.to_polydata
  let allMesh := ag.agGeometry.all fun g =>
    decide (g.kind = GeomKind.mesh3d ∨ g.kind = GeomKind.mesh2d)
  let allPoints := ag.agGeometry.all fun g => g.kind = GeomKind.point3d
  let start :=
    if allPoints then ([from_points3d_spec ag.agGeometry], "vertices")
    else (polyDatas, ag.agMatchingMethod)
  match display_process allMesh allPoints ag.agGeometry ag.agActiveData
      ag.agDataSets 0 start.2 start.1 Option.none with
  | Except.error e => Except.error e
  | Except.ok (pds, _, colorBy) =>
      match colorBy with
      | Option.none => Except.error (PyError.nameError "color_by")
      | some cb =>
          let pds1 := pds.map (fun pd => { pd with sColorBy := some cb })
          Except.ok (DisplayPolyDataM.make ag.agDisplayName ag.agIdentifier
            pds1 Option.none ag.agDisplayMode ag.agHidden)

/-- A geometry of the ladybug_display_schema as probed by _data_mapping
(vis_set.py): an optional face count (meshes), an optional face index count
(polyfaces) and an optional vertex count; a missing attribute raises the
AttributeError the try blocks of the source catch. -/
structure SchemaGeometry where
  faces : Option Nat
  face_indices : Option Nat
  vertices : Option Nat
  deriving Repr, DecidableEq

/-- A schema AnalysisGeometry as consumed by vis_set.from_analysis_geometry. -/
structure SchemaAnalysisGeometry where
  saGeometry : List SchemaGeometry
  saDataSets : List AGDataSet
  saActiveData : Nat
  deriving Repr, DecidableEq

/-- The DataMapping enumeration (vis_set.py, lines 12 to 16). -/
inductive DataMapping where
  | object
  | face
  | vertices
  deriving Repr, DecidableEq

/-- _data_mapping (vis_set.py, lines 30 to 68): infers, for each data set,
whether its values are one per object, per face or per vertex by comparing
the value count with the counts taken from the first geometry, raising
ValueError when nothing matches (and IndexError on an empty geometry
list). -/
def data_mapping (ag : SchemaAnalysisGeometry) :
    Except PyError (List DataMapping) :=
  match ag.saGeometry with
  | [] => Except.error PyError.indexError
  | g0 :: _ =>
      let objectsCount := ag.saGeometry.length
      let faceCount :=
        match g0.faces with
        | some n => n
        | Option.none =>
            match g0.face_indices with
            | some n => n
            | Option.none => 1
      let verticesCount :=
        match g0.vertices with
        | some n => n
        | Option.none => 0
      ag.saDataSets.mapM fun ds =>
        if ds.dsValues.length = objectsCount then Except.ok DataMapping.object
        else if ds.dsValues.length = faceCount then Except.ok DataMapping.face
        else if ds.dsValues.length = verticesCount then Except.ok DataMapping.vertices
        else Except.error (PyError.valueError
          "Length of input data does not match the length of the geometry.")

/-- Modelled from the spec: the external geometry-to-buffer conversion used
by vis_set.from_analysis_geometry: the buffer has one cell per face (or face
index, or one for a single face) and one point per vertex. -/
def schema_to_polydata (g : SchemaGeometry) : PolyData :=
  { numCells :=
      match g.faces with
      | some n => n
      | Option.none =>
          match g.face_indices with
          | some n => n
          | Option.none => 1,
    numPoints :=
      match g.vertices with
      | some n => n
      | Option.none => 0,
    cellArrays := [], pointArrays := [], fields := [] }

/-- The data set loop of vis_set.from_analysis_geometry (vis_set.py, lines
78 to 107): each data set is named from its data type, a per-object mapping
raises NotImplementedError, and otherwise the values are attached to every
buffer with the legend min and max as the explicit range, tracking the
active name for color_by. -/
def vis_set_loop (activeData : Nat) :
    List (AGDataSet × DataMapping) → Nat → List PolyData → Option String →
    Except PyError (List PolyData × Option String)
  | [], _, pds, colorBy => Except.ok (pds, colorBy)
  | (ds, mapping) :: rest, count, pds, colorBy =>
      let nm :=
        match ds.dsTypeName with
        | some n => n
        | Option.none => "untitled"
      if mapping = DataMapping.object then
        Except.error (PyError.notImplementedError
          "Mapping data per object is not currently supported.")
      else
        let isCellData := mapping ≠ DataMapping.vertices
        match pds.mapM (fun pd =>
            (add_data pd ds.dsValues nm isCellData Option.none
              (some (ds.dsMin, ds.dsMax))).map Prod.fst) with
        | Except.error e => Except.error e
        | Except.ok pds1 =>
            vis_set_loop activeData rest (count + 1) pds1
              (if count = activeData then some nm else colorBy)

/-- vis_set.from_analysis_geometry (vis_set.py, lines 71 to 113): converts
the geometry, infers the data mappings, and runs the data set loop, which
raises NotImplementedError at a per-object mapping; a run that finishes the
loop then constructs the ModelDataSet, whose initializer reads the absent
DisplayMode.Shaded member (model_dataset.py, line 24, against the enum of
vtkjs/schema.py), raising AttributeError. -/
def from_analysis_geometry_vis_set (ag : SchemaAnalysisGeometry) :
    Except PyError Unit :=
  match data_mapping ag with
  | Except.error e => Except.error e
  | Except.ok mappings =>
      match vis_set_loop ag.saActiveData (ag.saDataSets.zip mappings) 0
          (ag.saGeometry.map schema_to_polydata) Option.none with
      | Except.error e => Except.error e
      | Except.ok _ =>
          Except.error (PyError.attributeError
            "type object DisplayMode has no attribute Shaded")

/-- The single mesh entity with 2 faces and 4 vertices used for concrete
evaluations of the display builder. -/
def exampleMeshEntity : GeomEntity :=
  { kind := GeomKind.mesh3d, gFaces := 2, gVertices := 4 }

/-- A one-value data set named Temp with no explicit bounds, used for
concrete evaluations. -/
def exampleObjectDataSet : AGDataSet :=
  { dsValues := [Value.int 5], dsMin := Option.none, dsMax := Option.none,
    dsTypeName := some "Temp" }

/-- A concrete AnalysisGeometry declaring the per-object (geometries)
matching method: one mesh with 2 faces and one data set with a single
value. -/
def exampleDisplayAG : AnalysisGeometryM :=
  { agIdentifier := "ag-1", agDisplayName := "Analysis",
    agGeometry := [exampleMeshEntity],
    agDataSets := [exampleObjectDataSet],
    agActiveData := 0, agMatchingMethod := "geometries",
    agDisplayMode := DisplayMode.Surface, agHidden := false }

/-- C2 counterexample: building a DisplayPolyData from an AnalysisGeometry
whose matching method is the per-object value geometries does not fail: the
builder duplicates the single value 5 across the 2 faces of the mesh and
returns a group whose buffer carries the per-face field Temp with values
5, 5. -/
theorem c2_counterexample :
    (from_analysis_geometry_display exampleDisplayAG).map
        (fun d => d.dpPolydata.map
          (fun pd => pd.sFields.map (fun f => (f.sfName, f.sfValues, f.sfPerFace)))) =
      Except.ok [[("Temp", [Value.int 5, Value.int 5], true)]] := by
  rfl

/-- C2 amended: the ModelDataSet builder of vis_set.py fails with
NotImplementedError whenever the first data set maps per-object; the
DisplayPolyData builder of display_polydata.py does not fail for per-object
matching and instead duplicates each value across the faces of its
geometry. -/
theorem c2_object_mapping_not_implemented (ag : SchemaAnalysisGeometry)
    (rest : List DataMapping)
    (hm : data_mapping ag = Except.ok (DataMapping.object :: rest)) :
    from_analysis_geometry_vis_set ag =
      Except.error (PyError.notImplementedError
        "Mapping data per object is not currently supported.") := by
  rcases hD : ag.saDataSets with _ | ⟨ds0, dsR⟩
  · exfalso
    rcases hG : ag.saGeometry with _ | ⟨g0, gs⟩
    · rw [data_mapping, hG] at hm
      cases hm
    · rw [data_mapping, hG, hD] at hm
      simp [List.mapM, List.mapM.loop, pure, Except.pure] at hm
  · simp [from_analysis_geometry_vis_set, hm, hD, vis_set_loop]

/-- The single schema geometry entity with 2 faces and 4 vertices used for
concrete evaluations of the vis_set builder. -/
def exampleSchemaGeometry : SchemaGeometry :=
  { faces := some 2, face_indices := Option.none, vertices := some 4 }

/-- A concrete schema AnalysisGeometry with one geometry and one data set
whose single value maps per-object. -/
def exampleSchemaAG : SchemaAnalysisGeometry :=
  { saGeometry := [exampleSchemaGeometry],
    saDataSets := [exampleObjectDataSet],
    saActiveData := 0 }

/-- Witness for c2_object_mapping_not_implemented at a concrete input. -/
theorem c2_object_mapping_not_implemented_witness :
    from_analysis_geometry_vis_set exampleSchemaAG =
      Except.error (PyError.notImplementedError
        "Mapping data per object is not currently supported.") :=
  c2_object_mapping_not_implemented exampleSchemaAG [] (by rfl)

/-- DisplayPolyData.to_folder (display_polydata.py, lines 269 to 286):
returns None for an empty group, otherwise writes the single buffer (or the
buffers joined by JoinedPolyData, from the module joined_polydata.py not
among the sources at hand) and returns the written folder path, which is
what write_to_folder in writer.py returns. -/
def DisplayPolyDataM.to_folder (d : DisplayPolyDataM) (folder : String) :
    Option String :=
  if d.dpPolydata.length = 0 then Option.none
  else some (folder ++ "/" ++ d.dpIdentifier)

/-- The outcomes of the filesystem steps of one export call: whether writing
index.json, zipping the directory, moving the archive, and removing the
scratch directory fail. -/
structure World where
  indexJsonFails : Bool
  zipFails : Bool
  moveFails : Bool
  rmtreeFails : Bool
  deriving Repr, DecidableEq

/-- The dataset loop of VisualizationSet.to_vtkjs (visualization_set.py,
lines 76 to 83): a group whose to_folder produced no path is skipped, every
other group contributes its manifest entry to the scene list. -/
def buildScene (temp : String) :
    List DisplayPolyDataM → Except PyError (List DataSetM)
  | [] => Except.ok []
  | d :: ds =>
      match d.to_folder temp with
      | Option.none => buildScene temp ds
      | some _ =>
          match d.to_vtk_dataset with
          | Except.error e => Except.error e
          | Except.ok entry =>
              match buildScene temp ds with
              | Except.error e => Except.error e
              | Except.ok restScene => Except.ok (entry :: restScene)

deriving instance DecidableEq for Except

/-- The observable outcome of one export call: the returned path or raised
error, the scene array written into index.json when the run got that far,
and whether the scratch directory was removed by the end of the call. -/
structure ExportOutcome where
  result : Except PyError String
  sceneWritten : Option (List DataSetM)
  tempRemoved : Bool
  deriving Repr, DecidableEq

/-- VisualizationSet.to_vtkjs (visualization_set.py, lines 49 to 103), and
with the same step order Model.to_vtkjs (model.py, lines 35 to 88): create
the scratch directory, run the dataset loop, write index.json, zip the
directory, move the archive to the target path, and only then remove the
scratch directory inside a try block whose own failure is swallowed; an
exception at any earlier step propagates before the removal is reached. -/
def to_vtkjs (w : World) (datasets : List DisplayPolyDataM)
    (folder fileName : String) : ExportOutcome :=
  let targetFile := folder ++ "/" ++ fileName ++ ".vtkjs"
  match buildScene "temp" datasets with
  | Except.error e =>
      { result := Except.error e, sceneWritten := Option.none,
        tempRemoved := false }
  | Except.ok scene =>
      if w.indexJsonFails then
        { result := Except.error PyError.osError, sceneWritten := Option.none,
          tempRemoved := false }
      else if w.zipFails then
        { result := Except.error PyError.osError, sceneWritten := some scene,
          tempRemoved := false }
      else if w.moveFails then
        { result := Except.error PyError.osError, sceneWritten := some scene,
          tempRemoved := false }
      else
        { result := Except.ok targetFile, sceneWritten := some scene,
          tempRemoved := !w.rmtreeFails }

/-- The scene list does not change when the empty groups are dropped from
the dataset list before the loop. -/
theorem buildScene_filter (temp : String) (datasets : List DisplayPolyDataM) :
    buildScene temp datasets =
      buildScene temp (datasets.filter (fun d => !d.dpPolydata.isEmpty)) := by
  induction datasets with
  | nil => rfl
  | cons d ds ih =>
      rcases hpd : d.dpPolydata with _ | ⟨pd0, pdr⟩
      · simp [buildScene, DisplayPolyDataM.to_folder, hpd, ih]
      · simp [buildScene, DisplayPolyDataM.to_folder, hpd,
          DisplayPolyDataM.to_vtk_dataset, ih]

/-- C7: empty display groups are silently omitted from the manifest: the
scene list equals the one built after dropping them, and exporting only
empty groups returns normally with an empty scene array in index.json. -/
theorem c7_empty_groups_skipped (w : World) (datasets : List DisplayPolyDataM)
    (folder fileName temp : String)
    (hgood : w.indexJsonFails = false ∧ w.zipFails = false ∧
      w.moveFails = false) :
    buildScene temp datasets =
      buildScene temp (datasets.filter (fun d => !d.dpPolydata.isEmpty)) ∧
    ((∀ d ∈ datasets, d.dpPolydata = []) →
      to_vtkjs w datasets folder fileName =
        { result := Except.ok (folder ++ "/" ++ fileName ++ ".vtkjs"),
          sceneWritten := some [], tempRemoved := !w.rmtreeFails }) := by
  obtain ⟨h1, h2, h3⟩ := hgood
  refine ⟨buildScene_filter temp datasets, ?_⟩
  intro hall
  have hfilter : datasets.filter (fun d => !d.dpPolydata.isEmpty) = [] := by
    rw [List.filter_eq_nil_iff]
    intro d hd
    simp [hall d hd]
  have hbs : buildScene "temp" datasets = Except.ok [] := by
    rw [buildScene_filter "temp" datasets, hfilter]
    rfl
  simp [to_vtkjs, hbs, h1, h2, h3]

/-- The world in which every filesystem step succeeds. -/
def worldOk : World :=
  { indexJsonFails := false, zipFails := false, moveFails := false,
    rmtreeFails := false }

/-- A display group that owns no buffer. -/
def emptyGroup : DisplayPolyDataM :=
  { dpName := "Empty", dpIdentifier := "empty-1", dpPolydata := [],
    dpColor := defaultGray, dpDisplayMode := DisplayMode.Surface,
    dpHidden := false }

/-- Witness for c7_empty_groups_skipped at a concrete input. -/
theorem c7_empty_groups_skipped_witness :
    to_vtkjs worldOk [emptyGroup] "out" "scene" =
      { result := Except.ok ("out" ++ "/" ++ "scene" ++ ".vtkjs"),
        sceneWritten := some [], tempRemoved := !worldOk.rmtreeFails } :=
  (c7_empty_groups_skipped worldOk [emptyGroup] "out" "scene" "temp"
    ⟨rfl, rfl, rfl⟩).2 (by
      intro d hd
      rw [List.mem_singleton] at hd
      rw [hd]
      rfl)


/-- C8 amended: the scratch directory removal happens only at the end of a
successful run: on a normal return the removal is attempted and its own
failure is swallowed without changing the returned path, while an export
that raises at any earlier step skips the removal entirely and leaves the
scratch directory behind. -/
theorem c8_cleanup_success_only (w : World) (datasets : List DisplayPolyDataM)
    (folder fileName : String) :
    (isOk (to_vtkjs w datasets folder fileName).result = true →
      (to_vtkjs w datasets folder fileName).tempRemoved = !w.rmtreeFails) ∧
    (isOk (to_vtkjs w datasets folder fileName).result = false →
      (to_vtkjs w datasets folder fileName).tempRemoved = false) ∧
    (to_vtkjs w datasets folder fileName).result =
      (to_vtkjs { w with rmtreeFails := false } datasets folder fileName).result := by
  unfold to_vtkjs
  cases hbs : buildScene "temp" datasets with
  | error e => simp [isOk]
  | ok scene =>
      cases h1 : w.indexJsonFails <;> cases h2 : w.zipFails <;>
        cases h3 : w.moveFails <;> simp [isOk, h1, h2, h3]

/-- Witness for c8_cleanup_success_only at a concrete input. -/
theorem c8_cleanup_success_only_witness :
    (to_vtkjs worldOk [emptyGroup] "out" "scene").tempRemoved =
      !worldOk.rmtreeFails :=
  (c8_cleanup_success_only worldOk [emptyGroup] "out" "scene").1 rfl

/-- The world in which zipping the scratch directory fails. -/
def worldZipFails : World :=
  { indexJsonFails := false, zipFails := true, moveFails := false,
    rmtreeFails := false }

/-- C8 counterexample: when zipping the archive fails, the export call
raises and the scratch directory is not removed: the removal is reached only
on the success path, so the directory is not removed regardless of whether
the export succeeds or raises. -/
theorem c8_counterexample :
    (to_vtkjs worldZipFails [exampleGroup] "out" "scene").result =
      Except.error PyError.osError ∧
    (to_vtkjs worldZipFails [exampleGroup] "out" "scene").tempRemoved = false := by
  exact ⟨rfl, rfl⟩

end LadybugVtk
